import Mathlib

/-
Verification of the diagram-generation script `langgraph_diagram.py`.

The script is a straight-line matplotlib program: it opens one figure,
issues a fixed sequence of drawing calls (rounded boxes, text, arrows),
saves the figure as a PNG at a hardcoded absolute path, closes the
figure, and prints one confirmation line.

The shallow embedding below mirrors the script call by call:
  * `Figure` records the canvas configuration and the ordered list of
    drawing commands (`DrawCmd`), exactly as issued by the script;
  * the matplotlib calls used by the script (`subplots`, `set_xlim`,
    `set_ylim`, `axis_off`, `text`, `add_patch`, `tight_layout`) are
    state-passing functions on `Figure`;
  * the effectful tail of the script (`savefig`, `close`, `print`) is
    modelled by `create_langgraph_diagram`, a function from a `World`
    (argv, environment, filesystem writability) and the plotting
    library's global state (number of open figures) to a `RunResult`
    holding the trace of externally visible effects, the figure count,
    and whether an exception propagated (Python exits with status 1 on
    an uncaught exception);
  * rasterization is modelled as a deterministic function of the figure
    description and the save options, so a written file's content is the
    pair `(Figure, SaveOpts)`;
  * compositing semantics (`renderAt`) interprets the command list the
    way matplotlib draws it: artists are drawn in ascending zorder with
    insertion order kept within a level (the script never sets zorder,
    so boxes and arrows keep the Patch default 1 and text the Text
    default 3 and every text renders above every patch), and an element
    with alpha `a` contributes `a * new + (1 - a) * old` per channel;
    the extent of text ink depends on font metrics the source does not
    determine, so the semantics is parametric in a `TextInk` oracle
    giving each text command's covered points.
-/

namespace LanggraphDiagram

/-- Text keyword options, as passed at each `ax.text` call site; `none`
means the script did not pass the keyword. `bbox` records the
`dict(boxstyle=..., facecolor=...)` argument when present. -/
structure TextOpts where
  fontsize : ℕ
  fontweight : Option String := none
  ha : Option String := none
  va : Option String := none
  style : Option String := none
  color : Option String := none
  bbox : Option (String × String) := none
deriving DecidableEq

/-- A `FancyBboxPatch((x, y), w, h, boxstyle=..., facecolor=..., edgecolor=..., linewidth=...)`. -/
structure FancyBbox where
  x : ℚ
  y : ℚ
  w : ℚ
  h : ℚ
  boxstyle : String
  facecolor : String
  edgecolor : String
  linewidth : ℕ
deriving DecidableEq

/-- A `ConnectionPatch((xA, yA), (xB, yB), coordsA, coordsB, arrowstyle=..., ...)`.
It stores only coordinates: there is no reference to any node object. -/
structure Connection where
  xA : ℚ
  yA : ℚ
  xB : ℚ
  yB : ℚ
  coordsA : String
  coordsB : String
  arrowstyle : String
  shrinkA : ℕ
  shrinkB : ℕ
  mutation_scale : ℕ
  fc : String
  alpha : Option ℚ := none
deriving DecidableEq

/-- The two kinds of patch objects the script constructs. -/
inductive Patch where
  | fancy (fb : FancyBbox)
  | conn (c : Connection)
deriving DecidableEq

/-- One drawing command issued against the axes, in call order. -/
inductive DrawCmd where
  | text (x : ℚ) (y : ℚ) (s : String) (o : TextOpts)
  | patch (p : Patch)
deriving DecidableEq

/-- The matplotlib figure/axes state built by the script. -/
structure Figure where
  nrows : ℕ
  ncols : ℕ
  figwidth : ℚ
  figheight : ℚ
  xlim : ℚ × ℚ
  ylim : ℚ × ℚ
  axisOn : Bool
  cmds : List DrawCmd
deriving DecidableEq

/-- `plt.subplots(nrows, ncols, figsize=(w, h))`: a fresh figure with
matplotlib's default data limits (0, 1) and visible axes, no commands. -/
def subplots (nrows ncols : ℕ) (w h : ℚ) : Figure :=
  ⟨nrows, ncols, w, h, (0, 1), (0, 1), true, []⟩

/-- `ax.set_xlim(a, b)`. -/
def set_xlim (ax : Figure) (a b : ℚ) : Figure := { ax with xlim := (a, b) }

/-- `ax.set_ylim(a, b)`. -/
def set_ylim (ax : Figure) (a b : ℚ) : Figure := { ax with ylim := (a, b) }

/-- `ax.axis('off')`. -/
def axis_off (ax : Figure) : Figure := { ax with axisOn := false }

/-- `ax.text(x, y, s, ...)`: appends one text command. -/
def text (ax : Figure) (x y : ℚ) (s : String) (o : TextOpts) : Figure :=
  { ax with cmds := ax.cmds ++ [DrawCmd.text x y s o] }

/-- `ax.add_patch(p)`: appends one patch command. -/
def add_patch (ax : Figure) (p : Patch) : Figure :=
  { ax with cmds := ax.cmds ++ [DrawCmd.patch p] }

/-- `plt.tight_layout()`: adjusts subplot padding; it changes no datum
recorded in this model. -/
def tight_layout (ax : Figure) : Figure := ax

/-- The script's `colors` dictionary (lines 20-29). -/
def colors (k : String) : String :=
  if k = "input" then "#E3F2FD"
  else if k = "analyze" then "#FFECB3"
  else if k = "think" then "#F3E5F5"
  else if k = "tools" then "#E8F5E8"
  else if k = "synthesize" then "#FFF3E0"
  else if k = "output" then "#FAFAFA"
  else if k = "arrow" then "#666666"
  else if k = "text" then "#333333"
  else ""

/-- Lines 14-17: `fig, ax = plt.subplots(1, 1, figsize=(16, 12))`,
`ax.set_xlim(0, 16)`, `ax.set_ylim(0, 12)`, `ax.axis('off')`. The canvas
configuration before any drawing command. -/
def axInit : Figure :=
  axis_off (set_ylim (set_xlim (subplots 1 1 16 12) 0 16) 0 12)

/-- Lines 31-165: the full drawing sequence, call by call in source order. -/
def axFinal : Figure :=
  -- Title
  let ax := text axInit 8 11.5 "ThinkingCindyAgent - LangGraph Architecture"
    { fontsize := 20, fontweight := some "bold", ha := some "center",
      color := some (colors "text") }
  -- Phase 1: Input Analysis
  let ax := add_patch ax (Patch.fancy
    ⟨1, 9.5, 3, 1.2, "round,pad=0.1", colors "input", "black", 2⟩)
  let ax := text ax 2.5 10.1 "PHASE 1: INPUT"
    { fontsize := 12, fontweight := some "bold", ha := some "center" }
  let ax := text ax 2.5 9.8 "analyzeInput()"
    { fontsize := 10, ha := some "center", style := some "italic" }
  let ax := text ax 2.5 9.6 "• Parse hashtags\n• Extract clean input\n• Identify forced tools"
    { fontsize := 9, ha := some "center", va := some "center" }
  -- Phase 2: Thinking & Planning
  let ax := add_patch ax (Patch.fancy
    ⟨6, 9.5, 3, 1.2, "round,pad=0.1", colors "think", "black", 2⟩)
  let ax := text ax 7.5 10.1 "PHASE 2: THINKING"
    { fontsize := 12, fontweight := some "bold", ha := some "center" }
  let ax := text ax 7.5 9.8 "createThinkingPlan()"
    { fontsize := 10, ha := some "center", style := some "italic" }
  let ax := text ax 7.5 9.6 "• LLM planning call\n• Tool suggestion\n• Create execution plan"
    { fontsize := 9, ha := some "center", va := some "center" }
  -- Phase 3: Tool Execution
  let ax := add_patch ax (Patch.fancy
    ⟨11, 9.5, 3, 1.2, "round,pad=0.1", colors "tools", "black", 2⟩)
  let ax := text ax 12.5 10.1 "PHASE 3: TOOLS"
    { fontsize := 12, fontweight := some "bold", ha := some "center" }
  let ax := text ax 12.5 9.8 "executeTools()"
    { fontsize := 10, ha := some "center", style := some "italic" }
  let ax := text ax 12.5 9.6 "• Run planned tools\n• Collect results\n• Handle errors"
    { fontsize := 9, ha := some "center", va := some "center" }
  -- Phase 4: Synthesis
  let ax := add_patch ax (Patch.fancy
    ⟨6, 7.5, 3, 1.2, "round,pad=0.1", colors "synthesize", "black", 2⟩)
  let ax := text ax 7.5 8.1 "PHASE 4: SYNTHESIS"
    { fontsize := 12, fontweight := some "bold", ha := some "center" }
  let ax := text ax 7.5 7.8 "synthesizeResponse()"
    { fontsize := 10, ha := some "center", style := some "italic" }
  let ax := text ax 7.5 7.6 "• Final LLM call\n• Combine tool results\n• Generate citations"
    { fontsize := 9, ha := some "center", va := some "center" }
  -- Available Tools Section
  let ax := add_patch ax (Patch.fancy
    ⟨1, 5.5, 6, 1.5, "round,pad=0.1", "#F5F5F5", "black", 1⟩)
  let ax := text ax 4 6.8 "AVAILABLE TOOLS"
    { fontsize := 12, fontweight := some "bold", ha := some "center" }
  let ax := text ax 2 6.4 "• search_documents" { fontsize := 10, ha := some "left" }
  let ax := text ax 2 6.1 "• read_file" { fontsize := 10, ha := some "left" }
  let ax := text ax 2 5.8 "• write_file" { fontsize := 10, ha := some "left" }
  let ax := text ax 4.5 6.4 "• web_search" { fontsize := 10, ha := some "left" }
  let ax := text ax 4.5 6.1 "• brave_search" { fontsize := 10, ha := some "left" }
  let ax := text ax 4.5 5.8 "• list_directory" { fontsize := 10, ha := some "left" }
  -- Hashtag System
  let ax := add_patch ax (Patch.fancy
    ⟨9, 5.5, 6, 1.5, "round,pad=0.1", "#FFF9C4", "black", 1⟩)
  let ax := text ax 12 6.8 "HASHTAG TOOL FORCING"
    { fontsize := 12, fontweight := some "bold", ha := some "center" }
  let ax := text ax 10 6.4 "#search → search_documents" { fontsize := 10, ha := some "left" }
  let ax := text ax 10 6.1 "#read → read_file" { fontsize := 10, ha := some "left" }
  let ax := text ax 10 5.8 "#web → web_search_preferred" { fontsize := 10, ha := some "left" }
  let ax := text ax 13 6.4 "#write → write_file" { fontsize := 10, ha := some "left" }
  let ax := text ax 13 6.1 "#brave → brave_search" { fontsize := 10, ha := some "left" }
  let ax := text ax 13 5.8 "#dir → list_directory" { fontsize := 10, ha := some "left" }
  -- Streaming Process
  let ax := add_patch ax (Patch.fancy
    ⟨1, 3.5, 14, 1.5, "round,pad=0.1", "#E1F5FE", "blue", 2⟩)
  let ax := text ax 8 4.7 "STREAMING PROCESS (processStreaming)"
    { fontsize := 14, fontweight := some "bold", ha := some "center" }
  let ax := text ax 2 4.3 "<think> blocks"
    { fontsize := 10, ha := some "left", bbox := some ("round,pad=0.3", "white") }
  let ax := text ax 5 4.3 "<tool> execution"
    { fontsize := 10, ha := some "left", bbox := some ("round,pad=0.3", "white") }
  let ax := text ax 8.5 4.3 "Real-time progress"
    { fontsize := 10, ha := some "left", bbox := some ("round,pad=0.3", "white") }
  let ax := text ax 12 4.3 "Structured output"
    { fontsize := 10, ha := some "left", bbox := some ("round,pad=0.3", "white") }
  let ax := text ax 8 3.8 "Emits structured tokens for UI rendering: thinking blocks, tool calls, progress updates"
    { fontsize := 10, ha := some "center", style := some "italic" }
  -- LLM Calls
  let ax := add_patch ax (Patch.fancy
    ⟨1, 1.5, 14, 1.5, "round,pad=0.1", "#FCE4EC", "purple", 2⟩)
  let ax := text ax 8 2.7 "LLM INTEGRATION POINTS"
    { fontsize := 14, fontweight := some "bold", ha := some "center" }
  let ax := text ax 3 2.3 "1. Planning Call"
    { fontsize := 11, ha := some "center", bbox := some ("round,pad=0.3", "white") }
  let ax := text ax 3 2.0 "createThinkingPlan()"
    { fontsize := 9, ha := some "center", style := some "italic" }
  let ax := text ax 8 2.3 "2. Direct Response"
    { fontsize := 11, ha := some "center", bbox := some ("round,pad=0.3", "white") }
  let ax := text ax 8 2.0 "Simple greetings"
    { fontsize := 9, ha := some "center", style := some "italic" }
  let ax := text ax 13 2.3 "3. Synthesis Call"
    { fontsize := 11, ha := some "center", bbox := some ("round,pad=0.3", "white") }
  let ax := text ax 13 2.0 "synthesizeResponse()"
    { fontsize := 9, ha := some "center", style := some "italic" }
  let ax := text ax 8 1.7 "Smart routing: Simple greetings = 1 call | Complex requests = 2 calls"
    { fontsize := 10, ha := some "center", style := some "italic", color := some "purple" }
  -- Arrows showing flow
  -- Phase 1 to Phase 2
  let ax := add_patch ax (Patch.conn
    ⟨4, 10.1, 6, 10.1, "data", "data", "->", 5, 5, 20, colors "arrow", none⟩)
  -- Phase 2 to Phase 3
  let ax := add_patch ax (Patch.conn
    ⟨9, 10.1, 11, 10.1, "data", "data", "->", 5, 5, 20, colors "arrow", none⟩)
  -- Phase 3 to Phase 4
  let ax := add_patch ax (Patch.conn
    ⟨12.5, 9.5, 7.5, 8.7, "data", "data", "->", 5, 5, 20, colors "arrow", none⟩)
  -- Tools to Phase 3
  let ax := add_patch ax (Patch.conn
    ⟨4, 5.5, 12.5, 9.5, "data", "data", "->", 5, 5, 15, "green", some 0.7⟩)
  -- Hashtags to Phase 1
  let ax := add_patch ax (Patch.conn
    ⟨12, 5.5, 2.5, 9.5, "data", "data", "->", 5, 5, 15, "orange", some 0.7⟩)
  -- Footer
  let ax := text ax 8 0.5 "ThinkingCindyAgent: Multi-phase AI reasoning with tool execution and streaming output"
    { fontsize := 12, ha := some "center", style := some "italic", color := some "gray" }
  tight_layout ax

/-- The hardcoded absolute output path (line 168). -/
def savePath : String := "/Users/karwo09/code/voice-assistant/langgraph_architecture.png"

/-- The directory component of the output path. -/
def outputDir : String := "/Users/karwo09/code/voice-assistant/"

/-- The base filename of the output path. -/
def outputBase : String := "langgraph_architecture.png"

/-- Keyword options of the `plt.savefig` call (lines 168-169). -/
structure SaveOpts where
  dpi : ℕ
  bbox_inches : String
  facecolor : String
deriving DecidableEq

/-- `dpi=300, bbox_inches='tight', facecolor='white'`. -/
def saveOpts : SaveOpts := ⟨300, "tight", "white"⟩

/-- The confirmation line printed on success (line 172). -/
def successMessage : String :=
  "✅ LangGraph architecture diagram saved as 'langgraph_architecture.png'"

/-- An externally visible effect of a run. Rasterization is a
deterministic function of the figure description and the save options,
so a written file's content is modelled as the pair `(Figure, SaveOpts)`.
`netCall` is never emitted: the script opens no network connection. -/
inductive Eff where
  | fileWrite (path : String) (content : Figure × SaveOpts)
  | printLine (line : String)
  | netCall (url : String)
deriving DecidableEq

/-- The environment a run executes in: command-line arguments, process
environment variables, and which paths the filesystem accepts a write to. -/
structure World where
  argv : List String
  env : List (String × String)
  canWrite : String → Bool

/-- The plotting library's process-global state: how many figures are open. -/
structure PltState where
  openFigures : ℕ
deriving DecidableEq

/-- Result of one invocation: the trace of effects in the order they
happened, the number of open figures afterwards, and whether an
exception propagated out (Python then exits with a non-zero status). -/
structure RunResult where
  trace : List Eff
  openFigures : ℕ
  raised : Bool
deriving DecidableEq

/-- `create_langgraph_diagram()` (lines 12-172): builds `axFinal` (which
opens one figure), then `plt.savefig(savePath, ...)`; if the filesystem
rejects the write (missing directory, permission denied) the exception
propagates, `plt.close()` and the `print` never run, and no file is
produced; otherwise the file is written, the figure closed, and the
confirmation line printed. -/
def create_langgraph_diagram (w : World) (s : PltState) : RunResult :=
  let fig := axFinal
  let opened := s.openFigures + 1
  if w.canWrite savePath then
    { trace := [Eff.fileWrite savePath (fig, saveOpts), Eff.printLine successMessage],
      openFigures := opened - 1,
      raised := false }
  else
    { trace := [], openFigures := opened, raised := true }

/-- The `if __name__ == "__main__"` block (lines 174-175): one call to
`create_langgraph_diagram`, starting with no open figure. -/
def main_run (w : World) : RunResult :=
  create_langgraph_diagram w ⟨0⟩

/-- Process exit status: 0 on normal termination, 1 when an uncaught
exception propagates out of the script. -/
def exitCode (r : RunResult) : ℕ := if r.raised then 1 else 0

/-- The files a run wrote, in order. -/
def filesWritten (r : RunResult) : List (String × (Figure × SaveOpts)) :=
  r.trace.filterMap fun e => match e with
    | Eff.fileWrite p c => some (p, c)
    | _ => none

/-- The lines a run printed to standard output, in order. -/
def stdoutLines (r : RunResult) : List String :=
  r.trace.filterMap fun e => match e with
    | Eff.printLine s => some s
    | _ => none

/-- The network calls a run made, in order. -/
def netCalls (r : RunResult) : List String :=
  r.trace.filterMap fun e => match e with
    | Eff.netCall u => some u
    | _ => none

/-- `n` consecutive invocations of `create_langgraph_diagram`, threading
the plotting library's global figure count. -/
def runTimes : ℕ → World → PltState → PltState
  | 0, _, s => s
  | n + 1, w, s => runTimes n w ⟨(create_langgraph_diagram w s).openFigures⟩

/-- A world whose filesystem accepts every write. -/
def wOK : World := ⟨[], [], fun _ => true⟩

/-- A world whose filesystem rejects every write. -/
def wFail : World := ⟨[], [], fun _ => false⟩

/- Painter-style compositing semantics for the command list. -/

/-- An RGB color, channels rational in [0, 1]. -/
structure RGB where
  r : ℚ
  g : ℚ
  b : ℚ
deriving DecidableEq

/-- The color literals the script uses, as RGB (hex digits and the
standard named colors). -/
def colorToRGB (c : String) : RGB :=
  if c = "#E3F2FD" then ⟨227/255, 242/255, 253/255⟩
  else if c = "#FFECB3" then ⟨255/255, 236/255, 179/255⟩
  else if c = "#F3E5F5" then ⟨243/255, 229/255, 245/255⟩
  else if c = "#E8F5E8" then ⟨232/255, 245/255, 232/255⟩
  else if c = "#FFF3E0" then ⟨255/255, 243/255, 224/255⟩
  else if c = "#FAFAFA" then ⟨250/255, 250/255, 250/255⟩
  else if c = "#666666" then ⟨102/255, 102/255, 102/255⟩
  else if c = "#333333" then ⟨51/255, 51/255, 51/255⟩
  else if c = "#F5F5F5" then ⟨245/255, 245/255, 245/255⟩
  else if c = "#FFF9C4" then ⟨255/255, 249/255, 196/255⟩
  else if c = "#E1F5FE" then ⟨225/255, 245/255, 254/255⟩
  else if c = "#FCE4EC" then ⟨252/255, 228/255, 236/255⟩
  else if c = "white" then ⟨1, 1, 1⟩
  else if c = "green" then ⟨0, 128/255, 0⟩
  else if c = "orange" then ⟨1, 165/255, 0⟩
  else if c = "blue" then ⟨0, 0, 1⟩
  else if c = "purple" then ⟨128/255, 0, 128/255⟩
  else if c = "gray" then ⟨128/255, 128/255, 128/255⟩
  else ⟨0, 0, 0⟩

/-- White, the savefig background. -/
def whiteRGB : RGB := ⟨1, 1, 1⟩

/-- The fill color an element paints with: a box's facecolor, an arrow's
fc; a text command paints with its text color. -/
def cmdFace : DrawCmd → RGB
  | DrawCmd.text _ _ _ o => colorToRGB (o.color.getD "#333333")
  | DrawCmd.patch (Patch.fancy fb) => colorToRGB fb.facecolor
  | DrawCmd.patch (Patch.conn c) => colorToRGB c.fc

/-- The alpha an element is composited with (1 when not passed). -/
def cmdAlpha : DrawCmd → ℚ
  | DrawCmd.text _ _ _ _ => 1
  | DrawCmd.patch (Patch.fancy _) => 1
  | DrawCmd.patch (Patch.conn c) => c.alpha.getD 1

/-- Membership in the axis-aligned rectangle at (x, y), width w, height h. -/
def inRect (x y w h : ℚ) (p : ℚ × ℚ) : Bool :=
  decide (x ≤ p.1) && decide (p.1 ≤ x + w) && decide (y ≤ p.2) && decide (p.2 ≤ y + h)

/-- Membership in the closed segment from (xA, yA) to (xB, yB). -/
def onSegment (xA yA xB yB : ℚ) (p : ℚ × ℚ) : Bool :=
  decide ((p.1 - xA) * (yB - yA) = (p.2 - yA) * (xB - xA)) &&
  decide (min xA xB ≤ p.1) && decide (p.1 ≤ max xA xB) &&
  decide (min yA yB ≤ p.2) && decide (p.2 ≤ max yA yB)

/-- Font-metric oracle: the canvas points a text command's glyph ink
covers, as a function of the anchor, the string and the text options.
Glyph extents come from the font engine and are not determined by the
source, so the rendering semantics is parametric in this function. -/
def TextInk : Type := ℚ → ℚ → String → TextOpts → ℚ × ℚ → Bool

/-- The oracle crediting text with no ink at all (an
under-approximation, usable when a fact must hold however small the
glyphs are). -/
def noInk : TextInk := fun _ _ _ _ _ => false

/-- Whether a drawing command covers a canvas point: a rounded box
covers its core rectangle, an arrow covers its spine segment, and a
text command covers what the font-metric oracle says its ink covers. -/
def covers (ink : TextInk) : DrawCmd → ℚ × ℚ → Bool
  | DrawCmd.text x y s o, p => ink x y s o p
  | DrawCmd.patch (Patch.fancy fb), p => inRect fb.x fb.y fb.w fb.h p
  | DrawCmd.patch (Patch.conn c), p => onSegment c.xA c.yA c.xB c.yB p

/-- matplotlib draws artists in ascending zorder; the script never
passes a zorder, so every artist keeps its class default: Patch
(`FancyBboxPatch` and `ConnectionPatch` alike) 1, Text 3. -/
def cmdZorder : DrawCmd → ℕ
  | DrawCmd.text _ _ _ _ => 3
  | DrawCmd.patch _ => 1

/-- The commands at the default Patch level (zorder 1), in call order. -/
def patchCmds (cmds : List DrawCmd) : List DrawCmd :=
  cmds.filter fun c => cmdZorder c = 1

/-- The commands at the default Line2D level (zorder 2), in call order;
the script creates no Line2D artist, so this is always empty. -/
def lineCmds (cmds : List DrawCmd) : List DrawCmd :=
  cmds.filter fun c => cmdZorder c = 2

/-- The commands at the default Text level (zorder 3), in call order. -/
def textCmds (cmds : List DrawCmd) : List DrawCmd :=
  cmds.filter fun c => cmdZorder c = 3

/-- The order matplotlib actually draws the artists in: ascending
zorder, insertion order kept within a level (a stable sort). The
script's artists all sit at the default levels 1, 2 and 3, so bucketing
by those levels is the whole sort. -/
def renderOrder (cmds : List DrawCmd) : List DrawCmd :=
  patchCmds cmds ++ lineCmds cmds ++ textCmds cmds

/-- Alpha-over compositing of `new` at opacity `a` onto `old`. -/
def blend (old new : RGB) (a : ℚ) : RGB :=
  ⟨a * new.r + (1 - a) * old.r,
   a * new.g + (1 - a) * old.g,
   a * new.b + (1 - a) * old.b⟩

/-- One compositing step at point `p`. -/
def paintStep (ink : TextInk) (p : ℚ × ℚ) (acc : RGB) (c : DrawCmd) : RGB :=
  if covers ink c p then blend acc (cmdFace c) (cmdAlpha c) else acc

/-- The color at point `p` after compositing a command sequence in the
given order over background `bg`. -/
def paintAt (ink : TextInk) (cmds : List DrawCmd) (bg : RGB) (p : ℚ × ℚ) : RGB :=
  cmds.foldl (paintStep ink p) bg

/-- The color matplotlib renders at point `p`: the commands composited
in zorder-sorted draw order, not in call order. -/
def renderAt (ink : TextInk) (cmds : List DrawCmd) (bg : RGB) (p : ℚ × ℚ) : RGB :=
  paintAt ink (renderOrder cmds) bg p

/-- The last command in call order covering `p`, if any. -/
def lastCovering (ink : TextInk) (cmds : List DrawCmd) (p : ℚ × ℚ) : Option DrawCmd :=
  cmds.reverse.find? (fun c => covers ink c p)

/-- Rendering of the literal claim "visual stacking is determined
solely by draw order: for every pair of overlapping elements, the
later-drawn one occludes the earlier-drawn one, with no z-index beyond
call sequence": wherever some element covers a point, the rendered
color there is exactly the fill color of the last covering element in
call order. -/
def occlusionHolds (ink : TextInk) (cmds : List DrawCmd) (bg : RGB) : Prop :=
  ∀ p c, lastCovering ink cmds p = some c → renderAt ink cmds bg p = cmdFace c

/-- The fourth arrow (lines 154-156): tools section to Phase 3, drawn
with `fc='green', alpha=0.7`. -/
def cArrowToolsToPhase3 : DrawCmd :=
  DrawCmd.patch (Patch.conn ⟨4, 5.5, 12.5, 9.5, "data", "data", "->", 5, 5, 15, "green", some 0.7⟩)

/-- The tools-section box (lines 80-83). -/
def cToolsSection : DrawCmd :=
  DrawCmd.patch (Patch.fancy ⟨1, 5.5, 6, 1.5, "round,pad=0.1", "#F5F5F5", "black", 1⟩)

/-- A second all-writable world, with different argv and environment. -/
def wOK2 : World := ⟨["--verbose"], [("HOME", "/home/u")], fun _ => true⟩

/- Helper lemmas. Concrete evaluation of the model needs the kernel to
unfold the core rational-number operations, which ship irreducible. -/

attribute [local semireducible] Rat.ofScientific Rat.add Rat.sub Rat.mul Rat.inv

set_option maxRecDepth 8000

/-- A run either succeeds (the filesystem accepts the write) with the
write-then-print trace, or the write is rejected and the run raises with
an empty trace. -/
theorem main_run_cases (w : World) :
    (w.canWrite savePath = true ∧
      main_run w = ⟨[Eff.fileWrite savePath (axFinal, saveOpts),
                     Eff.printLine successMessage], 0, false⟩) ∨
    (w.canWrite savePath = false ∧ main_run w = ⟨[], 1, true⟩) := by
  cases hw : w.canWrite savePath
  · right
    exact ⟨rfl, by simp [main_run, create_langgraph_diagram, hw]⟩
  · left
    exact ⟨rfl, by simp [main_run, create_langgraph_diagram, hw]⟩

/-- Compositing with alpha 1 replaces the accumulated color. -/
theorem blend_alpha_one (old new : RGB) : blend old new 1 = new := by
  cases new
  simp [blend]

/-- Commands covering a point nowhere in the list leave the color unchanged. -/
theorem foldl_paintStep_of_not_covers (ink : TextInk) (p : ℚ × ℚ)
    (r : List DrawCmd) (x : RGB) (h : ∀ d ∈ r, covers ink d p = false) :
    List.foldl (paintStep ink p) x r = x := by
  induction r generalizing x with
  | nil => rfl
  | cons d r ih =>
    rw [List.foldl_cons]
    have hd : covers ink d p = false := h d (List.mem_cons_self d r)
    rw [paintStep, hd]
    simp only [Bool.false_eq_true, if_false]
    exact ih x fun e he => h e (List.mem_cons_of_mem d he)

/-- No command of the script sits at the Line2D level: each is a Patch
(zorder 1) or a Text (zorder 3). -/
theorem cmdZorder_ne_two (c : DrawCmd) : ¬ cmdZorder c = 2 := by
  cases c <;> simp [cmdZorder]

/-- The Line2D bucket is empty for every command list. -/
theorem lineCmds_eq_nil (cmds : List DrawCmd) : lineCmds cmds = [] := by
  induction cmds with
  | nil => rfl
  | cons c r ih => simpa [lineCmds, List.filter_cons, cmdZorder_ne_two c] using ih

/- Claim theorems. -/

/-- C1: every successful run writes exactly one file, at the single
hardcoded absolute path `/Users/karwo09/code/voice-assistant/langgraph_architecture.png`,
with dpi 300, white facecolor and tight bounding box, and writes no
other file. -/
theorem C1_single_output_file (w : World) (h : exitCode (main_run w) = 0) :
    filesWritten (main_run w) = [(savePath, (axFinal, saveOpts))] ∧
    savePath = "/Users/karwo09/code/voice-assistant/langgraph_architecture.png" ∧
    saveOpts.dpi = 300 ∧ saveOpts.facecolor = "white" ∧
    saveOpts.bbox_inches = "tight" := by
  rcases main_run_cases w with ⟨_, hrun⟩ | ⟨_, hrun⟩
  · rw [hrun]
    exact ⟨rfl, rfl, rfl, rfl, rfl⟩
  · rw [hrun] at h
    simp [exitCode] at h

/-- Witness for C1 at the all-writable world. -/
theorem C1_single_output_file_witness :
    exitCode (main_run wOK) = 0 ∧
    filesWritten (main_run wOK) = [(savePath, (axFinal, saveOpts))] :=
  ⟨rfl, (C1_single_output_file wOK rfl).1⟩

/-- C2: when the filesystem rejects the write, the run terminates with a
non-zero status and an empty effect trace (no file at all, so no
corrupt file, and no retry), and a rejected write is the only way the
run can fail. -/
theorem C2_write_failure_fatal (w : World) :
    (w.canWrite savePath = false →
      exitCode (main_run w) ≠ 0 ∧ filesWritten (main_run w) = [] ∧
      stdoutLines (main_run w) = [] ∧ (main_run w).trace = []) ∧
    (exitCode (main_run w) ≠ 0 → w.canWrite savePath = false) := by
  rcases main_run_cases w with ⟨hw, hrun⟩ | ⟨hw, hrun⟩
  · constructor
    · intro hfalse
      rw [hw] at hfalse
      exact absurd hfalse (by decide)
    · intro hne
      rw [hrun] at hne
      exact absurd rfl hne
  · constructor
    · intro _
      rw [hrun]
      exact ⟨by decide, rfl, rfl, rfl⟩
    · intro _
      exact hw

/-- Witness for C2 at the unwritable world. -/
theorem C2_write_failure_fatal_witness :
    exitCode (main_run wFail) ≠ 0 ∧ filesWritten (main_run wFail) = [] ∧
    stdoutLines (main_run wFail) = [] ∧ (main_run wFail).trace = [] :=
  (C2_write_failure_fatal wFail).1 rfl

/-- C3: any two successful runs write byte-for-byte identical files: the
rendered content is the fixed pair `(axFinal, saveOpts)`, independent of
everything in the world. -/
theorem C3_deterministic_output (w₁ w₂ : World)
    (h₁ : exitCode (main_run w₁) = 0) (h₂ : exitCode (main_run w₂) = 0) :
    filesWritten (main_run w₁) = filesWritten (main_run w₂) ∧
    filesWritten (main_run w₁) = [(savePath, (axFinal, saveOpts))] := by
  rcases main_run_cases w₁ with ⟨_, hrun₁⟩ | ⟨_, hrun₁⟩
  · rcases main_run_cases w₂ with ⟨_, hrun₂⟩ | ⟨_, hrun₂⟩
    · rw [hrun₁, hrun₂]
      exact ⟨rfl, rfl⟩
    · rw [hrun₂] at h₂
      simp [exitCode] at h₂
  · rw [hrun₁] at h₁
    simp [exitCode] at h₁

/-- Witness for C3: two successful runs in worlds differing in argv and
environment. -/
theorem C3_deterministic_output_witness :
    filesWritten (main_run wOK) = filesWritten (main_run wOK2) ∧
    filesWritten (main_run wOK) = [(savePath, (axFinal, saveOpts))] :=
  C3_deterministic_output wOK wOK2 rfl rfl

/-- C4: the run succeeds iff standard output is exactly the one
confirmation line; on success the trace is the file write followed by
the print (so the line appears only after the file is written), and a
failing run prints nothing. -/
theorem C4_confirmation_line (w : World) :
    (exitCode (main_run w) = 0 ↔ stdoutLines (main_run w) = [successMessage]) ∧
    (exitCode (main_run w) = 0 →
      (main_run w).trace =
        [Eff.fileWrite savePath (axFinal, saveOpts), Eff.printLine successMessage]) ∧
    (exitCode (main_run w) ≠ 0 → stdoutLines (main_run w) = []) := by
  rcases main_run_cases w with ⟨_, hrun⟩ | ⟨_, hrun⟩ <;> rw [hrun]
  · refine ⟨⟨fun _ => rfl, fun _ => rfl⟩, fun _ => rfl, fun hne => absurd rfl hne⟩
  · refine ⟨⟨fun h0 => absurd h0 (by decide), fun hs => ?_⟩, fun h0 => absurd h0 (by decide), fun _ => rfl⟩
    exact absurd hs (by decide)

/-- Witness for C4 at the all-writable world. -/
theorem C4_confirmation_line_witness :
    stdoutLines (main_run wOK) = [successMessage] ∧
    (main_run wOK).trace =
      [Eff.fileWrite savePath (axFinal, saveOpts), Eff.printLine successMessage] :=
  ⟨(C4_confirmation_line wOK).1.mp rfl, (C4_confirmation_line wOK).2.1 rfl⟩

/-- C5: the run reads nothing from argv, the environment, or the
network: two worlds with the same filesystem behavior produce identical
runs, no run emits a network call, and a successful run performs the
render-and-save sequence exactly once. -/
theorem C5_no_external_input (w₁ w₂ : World) (h : w₁.canWrite = w₂.canWrite) :
    main_run w₁ = main_run w₂ ∧
    netCalls (main_run w₁) = [] ∧
    (exitCode (main_run w₁) = 0 →
      filesWritten (main_run w₁) = [(savePath, (axFinal, saveOpts))]) := by
  refine ⟨by simp only [main_run, create_langgraph_diagram, h], ?_, ?_⟩
  · rcases main_run_cases w₁ with ⟨_, hrun⟩ | ⟨_, hrun⟩ <;> rw [hrun] <;> rfl
  · intro h0
    rcases main_run_cases w₁ with ⟨_, hrun⟩ | ⟨_, hrun⟩
    · rw [hrun]
      rfl
    · rw [hrun] at h0
      simp [exitCode] at h0

/-- Witness for C5: identical filesystem, different argv and environment. -/
theorem C5_no_external_input_witness :
    main_run wOK = main_run wOK2 ∧ netCalls (main_run wOK) = [] ∧
    filesWritten (main_run wOK) = [(savePath, (axFinal, saveOpts))] :=
  ⟨(C5_no_external_input wOK wOK2 rfl).1, (C5_no_external_input wOK wOK2 rfl).2.1,
   (C5_no_external_input wOK wOK2 rfl).2.2 rfl⟩

/-- C6 counterexample: the claim "visual stacking is determined solely
by draw order: the later-drawn one occludes the earlier-drawn one" is
false, even crediting text with no ink at all. At point (5.7, 6.3) the
last covering element in call order is the tools-to-Phase-3 arrow,
drawn with alpha 0.7 over the tools-section box, so the rendered color
is the blend 0.7·green + 0.3·#F5F5F5, not the arrow's own green. -/
theorem C6_occlusion_counterexample : ¬ occlusionHolds noInk axFinal.cmds whiteRGB := by
  intro h
  have hc := h (5.7, 6.3) cArrowToolsToPhase3 (by decide)
  exact absurd hc (by decide)

/-- C6 (amended): stacking is determined by zorder first and call
sequence second. Each API call appends one command and mutates nothing.
For every font-metric oracle, the rendered drawing order is every
Patch-level command (boxes and arrows, default zorder 1) in call order
followed by every text command (default zorder 3) in call order — so
each text element renders above each box and arrow regardless of call
sequence — and the rendered color composites the patch layer first and
the text layer after it. Within a compositing sequence a later element
covering a point determines the color there by blending over what came
before: fully opaque elements (alpha 1) occlude outright, the
two 0.7-alpha arrows blend. A successful run builds the canvas once
and exports it once. -/
theorem C6_draw_order_compositing :
    (∀ (ax : Figure) (x y : ℚ) (s : String) (o : TextOpts),
      (text ax x y s o).cmds = ax.cmds ++ [DrawCmd.text x y s o]) ∧
    (∀ (ax : Figure) (q : Patch),
      (add_patch ax q).cmds = ax.cmds ++ [DrawCmd.patch q]) ∧
    (∀ cmds : List DrawCmd, renderOrder cmds = patchCmds cmds ++ textCmds cmds) ∧
    (∀ (ink : TextInk) (cmds : List DrawCmd) (bg : RGB) (p : ℚ × ℚ),
      renderAt ink cmds bg p =
        paintAt ink (textCmds cmds) (paintAt ink (patchCmds cmds) bg p) p) ∧
    (∀ (ink : TextInk) (l r : List DrawCmd) (c : DrawCmd) (bg : RGB) (p : ℚ × ℚ),
      covers ink c p = true →
      paintAt ink (l ++ c :: r) bg p =
        List.foldl (paintStep ink p)
          (blend (paintAt ink l bg p) (cmdFace c) (cmdAlpha c)) r) ∧
    (∀ (ink : TextInk) (l r : List DrawCmd) (c : DrawCmd) (bg : RGB) (p : ℚ × ℚ),
      covers ink c p = true → cmdAlpha c = 1 →
      (∀ d ∈ r, covers ink d p = false) →
      paintAt ink (l ++ c :: r) bg p = cmdFace c) ∧
    (∀ w : World, exitCode (main_run w) = 0 →
      filesWritten (main_run w) = [(savePath, (axFinal, saveOpts))]) := by
  have hbuckets : ∀ cmds : List DrawCmd,
      renderOrder cmds = patchCmds cmds ++ textCmds cmds := by
    intro cmds
    rw [renderOrder, lineCmds_eq_nil, List.append_nil]
  have hsplit : ∀ (ink : TextInk) (l r : List DrawCmd) (c : DrawCmd)
      (bg : RGB) (p : ℚ × ℚ), covers ink c p = true →
      paintAt ink (l ++ c :: r) bg p =
        List.foldl (paintStep ink p)
          (blend (paintAt ink l bg p) (cmdFace c) (cmdAlpha c)) r := by
    intro ink l r c bg p hc
    rw [paintAt, List.foldl_append, List.foldl_cons]
    rw [paintStep, hc]
    simp only [if_true]
    rfl
  refine ⟨fun ax x y s o => rfl, fun ax q => rfl, hbuckets, ?_, hsplit, ?_, ?_⟩
  · intro ink cmds bg p
    rw [renderAt, hbuckets, paintAt, List.foldl_append]
    rfl
  · intro ink l r c bg p hc ha hr
    rw [hsplit ink l r c bg p hc, ha, blend_alpha_one]
    exact foldl_paintStep_of_not_covers ink p r (cmdFace c) hr
  · intro w h0
    rcases main_run_cases w with ⟨_, hrun⟩ | ⟨_, hrun⟩
    · rw [hrun]
      rfl
    · rw [hrun] at h0
      simp [exitCode] at h0

/-- Witness for C6 (amended): on the real figure the patch bucket is
composited before the text bucket; the opaque tools-section box alone
paints a covered point with its own facecolor; a concrete successful
run exports once. -/
theorem C6_draw_order_compositing_witness :
    renderAt noInk axFinal.cmds whiteRGB (2, 6) =
      paintAt noInk (textCmds axFinal.cmds)
        (paintAt noInk (patchCmds axFinal.cmds) whiteRGB (2, 6)) (2, 6) ∧
    paintAt noInk ([] ++ cToolsSection :: []) whiteRGB (2, 6) = cmdFace cToolsSection ∧
    filesWritten (main_run wOK) = [(savePath, (axFinal, saveOpts))] :=
  ⟨C6_draw_order_compositing.2.2.2.1 noInk axFinal.cmds whiteRGB (2, 6),
   C6_draw_order_compositing.2.2.2.2.2.1 noInk [] [] cToolsSection whiteRGB (2, 6)
      (by decide) (by decide) (fun d hd => absurd hd (List.not_mem_nil d)),
   C6_draw_order_compositing.2.2.2.2.2.2 wOK rfl⟩

/-- C7: before any drawing command, the canvas is configured with x
bounds 0..16, y bounds 0..12 and hidden axes, and these settings are
still those of the final figure. -/
theorem C7_canvas_init :
    axInit.cmds = [] ∧ axInit.xlim = (0, 16) ∧ axInit.ylim = (0, 12) ∧
    axInit.axisOn = false ∧ axInit.figwidth = 16 ∧ axInit.figheight = 12 ∧
    axFinal.xlim = (0, 16) ∧ axFinal.ylim = (0, 12) ∧ axFinal.axisOn = false := by
  decide

/-- The endpoints and arrow style of a `ConnectionPatch` command; the
`Connection` record stores coordinates only, never a reference to a node. -/
def connData : DrawCmd → Option (((ℚ × ℚ) × (ℚ × ℚ)) × String)
  | DrawCmd.patch (Patch.conn c) => some (((c.xA, c.yA), (c.xB, c.yB)), c.arrowstyle)
  | _ => none

/-- C8: the figure contains exactly five directional arrows, in draw
order: Phase 1 → Phase 2, Phase 2 → Phase 3, Phase 3 → Phase 4, tools
section → Phase 3, hashtag section → Phase 1, each given by a literal
coordinate pair. -/
theorem C8_five_arrows :
    axFinal.cmds.filterMap connData =
      [(((4, 10.1), (6, 10.1)), "->"),
       (((9, 10.1), (11, 10.1)), "->"),
       (((12.5, 9.5), (7.5, 8.7)), "->"),
       (((4, 5.5), (12.5, 9.5)), "->"),
       (((12, 5.5), (2.5, 9.5)), "->")] := by
  decide

/-- C9: the output path is the directory plus the base filename, the
confirmation line contains the base filename, and it does not contain
the directory where the file is actually written. -/
theorem C9_message_omits_directory :
    savePath = outputDir ++ outputBase ∧
    outputBase.data <:+: successMessage.data ∧
    ¬ outputDir.data <:+: successMessage.data := by
  refine ⟨rfl, ?_, ?_⟩ <;> decide

/-- After a successful call the figure count is back to its initial
value (one figure opened, one closed). -/
theorem openFigures_restored (w : World) (s : PltState)
    (h : w.canWrite savePath = true) :
    (create_langgraph_diagram w s).openFigures = s.openFigures := by
  simp [create_langgraph_diagram, h]

/-- Iterating successful runs leaves the figure count unchanged. -/
theorem runTimes_fixed (w : World) (h : w.canWrite savePath = true) :
    ∀ (n : ℕ) (s : PltState), runTimes n w s = s := by
  intro n
  induction n with
  | zero => intro s; rfl
  | succ n ih =>
    intro s
    show runTimes n w ⟨(create_langgraph_diagram w s).openFigures⟩ = s
    rw [openFigures_restored w s h]
    cases s
    exact ih _

/-- C10: a normal (non-raising) run closes the figure it opened: the
plotting library's global open-figure count is unchanged, and any number
of repeated invocations accumulates no figure. -/
theorem C10_figure_closed (w : World) (s : PltState)
    (h : w.canWrite savePath = true) :
    (create_langgraph_diagram w s).raised = false ∧
    (create_langgraph_diagram w s).openFigures = s.openFigures ∧
    ∀ n : ℕ, runTimes n w s = s := by
  refine ⟨by simp [create_langgraph_diagram, h], openFigures_restored w s h,
    fun n => runTimes_fixed w h n s⟩

/-- Witness for C10: three consecutive runs from a fresh state keep zero
open figures. -/
theorem C10_figure_closed_witness :
    (create_langgraph_diagram wOK ⟨0⟩).raised = false ∧
    (create_langgraph_diagram wOK ⟨0⟩).openFigures = 0 ∧
    runTimes 3 wOK ⟨0⟩ = ⟨0⟩ :=
  ⟨(C10_figure_closed wOK ⟨0⟩ rfl).1, (C10_figure_closed wOK ⟨0⟩ rfl).2.1,
   (C10_figure_closed wOK ⟨0⟩ rfl).2.2 3⟩

end LanggraphDiagram
